import Mathlib

/-!
Shallow embedding of the analytical core of the `sesame-eos-gui` tool
(`sesame_analyzer.py` and `opac_converter.py`).

Numeric values are modelled as exact rationals (`ℚ`).  Python's dynamic
values (a dictionary entry that can be a number, the string `'N/A'`,
or absent) are modelled with `PyVal` and `Option`.  A Python function body
that can raise an uncaught exception is modelled as `Except String α`,
the error string naming the Python exception class.  Python string helpers
(`str.strip`, `str.split`, `int(...)`, `float(...)`) are modelled as
structurally recursive functions over the character list of the string.
-/

/-- Placeholder threshold from `sesame_analyzer.py`: a density or temperature
entry is valid iff it is strictly greater than `1e-10`. -/
def validThreshold : ℚ := 1 / 10 ^ 10

/-- Constant `atomic_mass_unit = 1.66054e-24` (grams) from
`_calculate_ion_densities`. -/
def atomic_mass_unit : ℚ := 166054 / 10 ^ 29

/-- Value stored in the loosely typed `eos_data` dictionary: either a number
or a string (the code explicitly compares `abar` against the string `'N/A'`). -/
inductive PyVal where
  | num (q : ℚ)
  | str (s : String)
deriving DecidableEq

/-- Body of the `try:` block of `_calculate_ion_densities`
(`sesame_analyzer.py` lines 296-310).  `abar` is
`self.eos_data.get('abar', 10.0)`; the code then replaces it by `10.0` when
it equals the string `'N/A'` or is `≤ 0`, and divides the mass densities by
`abar * atomic_mass_unit`.  Comparing a non-`'N/A'` string with `0` raises a
`TypeError` in Python, which the surrounding `except` catches. -/
def calculate_ion_densities_body (abar : Option PyVal) (mass_densities : List ℚ) :
    Except String (List ℚ) :=
  match abar.getD (PyVal.num 10) with
  | PyVal.str s =>
      if s = "N/A" then
        Except.ok (mass_densities.map (fun x => x / (10 * atomic_mass_unit)))
      else
        Except.error "TypeError"
  | PyVal.num q =>
      let eff := if q ≤ 0 then (10 : ℚ) else q
      Except.ok (mass_densities.map (fun x => x / (eff * atomic_mass_unit)))

/-- Full `_calculate_ion_densities` (`sesame_analyzer.py` lines 294-315):
on any exception from the body it returns `np.zeros_like(mass_densities)`
(the warning `print` is an out-of-scope side effect). -/
def calculate_ion_densities (abar : Option PyVal) (mass_densities : List ℚ) : List ℚ :=
  match calculate_ion_densities_body abar mass_densities with
  | Except.ok r => r
  | Except.error _ => List.replicate mass_densities.length 0

/-- Filtering `xs[xs > 1e-10]` as used throughout `sesame_analyzer.py`. -/
def filterValid (xs : List ℚ) : List ℚ :=
  xs.filter (fun x => decide (validThreshold < x))

/-- Count `np.sum(xs > 1e-10)` of valid entries. -/
def countValid (xs : List ℚ) : Nat := (filterValid xs).length

/-- Selecting `vals[mask > 1e-10]`: keep the entries of `vals` at the indices
where the aligned `mask` array is valid (e.g. `ion_densities[densities > 1e-10]`). -/
def maskValid (mask vals : List ℚ) : List ℚ :=
  (mask.zip vals).filterMap (fun p => if validThreshold < p.1 then some p.2 else none)

/-- Index of the first entry satisfying `p`, i.e. `np.where(mask)[0][0]`
guarded by `np.any(mask)` (`none` when no entry satisfies `p`). -/
def firstTrueIdx (p : ℚ → Bool) : List ℚ → Option Nat
  | [] => none
  | x :: xs => if p x then some 0 else (firstTrueIdx p xs).map (· + 1)

/-- Per-density-row index recorded by the threshold scan
(`sesame_analyzer.py` lines 350-358 and 471-479): the first temperature index
with a positive quantity, or `len(valid_temperatures) - 1` when the row is
never positive.  Python `int` arithmetic, hence `Int` (the clamp value is
`-1` when there are zero valid temperatures). -/
def rowFirstPositiveIdx (numTemps : Nat) (row : List ℚ) : Int :=
  match firstTrueIdx (fun q => decide (0 < q)) row with
  | some i => (i : Int)
  | none => (numTemps : Int) - 1

/-- Python `max(list)` over ints, `none` for the empty list (the code guards
with `if min_temp_indices:`). -/
def pyMax? : List Int → Option Int
  | [] => none
  | x :: xs => some (xs.foldl max x)

/-- Python sequence index resolution: a negative index counts from the end. -/
def pyIndex (len : Nat) (i : Int) : Int :=
  if i < 0 then (len : Int) + i else i

/-- Python sequence read `xs[i]`: `none` models the raised `IndexError`. -/
def pyGet? (xs : List ℚ) (i : Int) : Option ℚ :=
  if 0 ≤ pyIndex xs.length i then xs.get? (pyIndex xs.length i).toNat else none

/-- Submatrix `Q[np.ix_(densities > 1e-10, temperatures > 1e-10)]`: keep the
rows at valid densities and, within each, the columns at valid temperatures. -/
def selectValid (densities temperatures : List ℚ) (grid : List (List ℚ)) :
    List (List ℚ) :=
  (densities.zip grid).filterMap (fun p =>
    if validThreshold < p.1 then
      some ((temperatures.zip p.2).filterMap
        (fun c => if validThreshold < c.1 then some c.2 else none))
    else none)

/-- Threshold scan of `sesame_analyzer.py` lines 344-364 (internal energy) and
465-485 (pressure); the two call sites run this identical logic on their
respective grids.  For each valid density row record the first temperature
index with a positive value (clamped to the last index when never positive),
take the maximum index `m`, and when `m < len(valid_temperatures)` return
`valid_temperatures[m]`.  `Except.error "IndexError"` models the uncaught
exception raised by `valid_temperatures[m]` when the index is out of range
on the negative side (which happens exactly when the valid temperature list
is empty and a row was clamped to `-1`). -/
def minPositiveTemp (valid_temperatures : List ℚ) (grid : List (List ℚ)) :
    Except String (Option ℚ) :=
  match pyMax? (grid.map (rowFirstPositiveIdx valid_temperatures.length)) with
  | none => Except.ok none
  | some m =>
      if m < (valid_temperatures.length : Int) then
        match pyGet? valid_temperatures m with
        | some t => Except.ok (some t)
        | none => Except.error "IndexError"
      else Except.ok none

/-- Per-row recorded index as the specification states it (a natural number:
first column with `Q[d,t] > 0`, or `len(temperatures) - 1` when the row has
no positive entry). -/
def firstPosIdxSpec (numTemps : Nat) (row : List ℚ) : Nat :=
  match firstTrueIdx (fun q => decide (0 < q)) row with
  | some i => i
  | none => numTemps - 1

/-- Python `str.strip()`: drop leading and trailing whitespace. -/
def pyStrip (cs : List Char) : List Char :=
  ((cs.dropWhile Char.isWhitespace).reverse.dropWhile Char.isWhitespace).reverse

/-- Python `str.split(',')`: split at every comma (an empty piece between
two commas is kept, exactly as in Python). -/
def pySplitComma : List Char → List Char → List (List Char)
  | [], acc => [acc.reverse]
  | c :: cs, acc =>
      if c = ',' then acc.reverse :: pySplitComma cs []
      else pySplitComma cs (c :: acc)

/-- Value of a digit string (assumes all characters are decimal digits). -/
def digitsFold (cs : List Char) : Nat :=
  cs.foldl (fun n c => 10 * n + (c.toNat - 48)) 0

/-- Parse a nonempty all-digit string. -/
def digitsVal? (cs : List Char) : Option Nat :=
  if cs ≠ [] ∧ cs.all Char.isDigit then some (digitsFold cs) else none

/-- Python `int(s)`: optional sign followed by digits, surrounding whitespace
allowed; `none` models the raised `ValueError`. -/
def pyInt? (s : List Char) : Option Int :=
  match pyStrip s with
  | '+' :: cs => (digitsVal? cs).map (fun n => (n : Int))
  | '-' :: cs => (digitsVal? cs).map (fun n => -(n : Int))
  | cs => (digitsVal? cs).map (fun n => (n : Int))

/-- Unsigned decimal mantissa of a Python float literal: `digits`,
`digits.`, `.digits` or `digits.digits`. -/
def parseUDec? (cs : List Char) : Option ℚ :=
  let ip := cs.takeWhile (fun c => c != '.')
  match cs.dropWhile (fun c => c != '.') with
  | [] => (digitsVal? ip).map (fun n => (n : ℚ))
  | _ :: fp =>
      if ip.isEmpty && fp.isEmpty then none
      else if ip.all Char.isDigit && fp.all Char.isDigit then
        some (mkRat (digitsFold ip * 10 ^ fp.length + digitsFold fp) (10 ^ fp.length))
      else none

/-- Mantissa with optional `e`/`E` exponent of a Python float literal. -/
def pyFloatCore? (cs : List Char) : Option ℚ :=
  let mant := cs.takeWhile (fun c => c != 'e' && c != 'E')
  match cs.dropWhile (fun c => c != 'e' && c != 'E') with
  | [] => parseUDec? mant
  | _ :: ex =>
      let eneg := match ex with | '-' :: _ => true | _ => false
      let edigits := match ex with | '+' :: r => r | '-' :: r => r | r => r
      match parseUDec? mant, digitsVal? edigits with
      | some mv, some e =>
          some (if eneg then mv / (10 : ℚ) ^ e else mv * (10 : ℚ) ^ e)
      | _, _ => none

/-- Python `float(s)`: optional sign, decimal mantissa, optional exponent,
surrounding whitespace allowed; `none` models the raised `ValueError`.
Values are exact rationals; the claims settled here never depend on binary
floating-point rounding. -/
def pyFloat? (s : List Char) : Option ℚ :=
  match pyStrip s with
  | '+' :: cs => pyFloatCore? cs
  | '-' :: cs => (pyFloatCore? cs).map (fun q => -q)
  | cs => pyFloatCore? cs

/-- The comprehension `[int(z.strip()) for z in s.split(',')]`
(`opac_converter.py` line 97); `none` models the raised `ValueError`. -/
def parseIntList? (s : String) : Option (List Int) :=
  (pySplitComma s.data []).mapM pyInt?

/-- The comprehension `[float(x.strip()) for x in s.split(',')]`
(`opac_converter.py` line 107); `none` models the raised `ValueError`. -/
def parseFloatList? (s : String) : Option (List ℚ) :=
  (pySplitComma s.data []).mapM pyFloat?

/-- Python `abs` on a rational. -/
def pyAbs (q : ℚ) : ℚ := if q < 0 then -q else q

/-- Python `sum` of a list of rationals. -/
def pySum (xs : List ℚ) : ℚ := xs.foldl (· + ·) 0

/-- Raw string-valued conversion parameters handed to `validate_parameters`
(`opac_converter.py`).  `none` models an absent dictionary key; the empty
string is "falsy" exactly as in Python. -/
structure ConvParams where
  Znum : Option String
  Xfracs : Option String
  tabnum : Option String
  Tmin : Option String

/-- The `Znum` block of `validate_parameters` (`opac_converter.py` lines
93-101). -/
def znumErrors (p : ConvParams) : List String :=
  match p.Znum with
  | none => ["Atomic numbers (Znum) are required"]
  | some s =>
      if s = "" then ["Atomic numbers (Znum) are required"]
      else
        match parseIntList? s with
        | none => ["Invalid atomic numbers format"]
        | some zs =>
            if zs.any (fun z => decide (z ≤ 0)) then
              ["All atomic numbers must be positive"]
            else []

/-- The `Xfracs` block of `validate_parameters` (`opac_converter.py` lines
103-113): on a successful parse both the positivity check and the
sum-to-1.0-within-`1e-6` check run and can each append an error. -/
def xfracsErrors (p : ConvParams) : List String :=
  match p.Xfracs with
  | none => ["Element fractions (Xfracs) are required"]
  | some s =>
      if s = "" then ["Element fractions (Xfracs) are required"]
      else
        match parseFloatList? s with
        | none => ["Invalid element fractions format"]
        | some xs =>
            (if xs.any (fun x => decide (x ≤ 0)) then
              ["All element fractions must be positive"]
            else [])
            ++ (if pyAbs (pySum xs - 1) > 1 / 10 ^ 6 then
              ["Element fractions should sum to 1.0"]
            else [])

/-- The length-comparison block of `validate_parameters` (`opac_converter.py`
lines 116-123): both fields present and non-empty, lengths of the raw
comma-splits compared (no numeric parsing here). -/
def lengthErrors (p : ConvParams) : List String :=
  match p.Znum, p.Xfracs with
  | some z, some x =>
      if z ≠ "" ∧ x ≠ "" then
        if (pySplitComma z.data []).length ≠ (pySplitComma x.data []).length then
          ["Number of atomic numbers must match number of fractions"]
        else []
      else []
  | _, _ => []

/-- The `tabnum` block of `validate_parameters` (`opac_converter.py` lines
126-130). -/
def tabnumErrors (p : ConvParams) : List String :=
  match p.tabnum with
  | none => []
  | some s =>
      if s = "" then []
      else
        match pyInt? s.data with
        | none => ["Table number must be an integer"]
        | some _ => []

/-- The `Tmin` block of `validate_parameters` (`opac_converter.py` lines
132-138). -/
def tminErrors (p : ConvParams) : List String :=
  match p.Tmin with
  | none => []
  | some s =>
      if s = "" then []
      else
        match pyFloat? s.data with
        | none => ["Minimum temperature must be a number"]
        | some t =>
            if t ≤ 0 then ["Minimum temperature must be positive"] else []

/-- `validate_parameters` (`opac_converter.py` lines 88-140): the five blocks
run unconditionally in order, each appending its own error strings to the
shared `errors` list. -/
def validate_parameters (p : ConvParams) : List String :=
  znumErrors p ++ xfracsErrors p ++ lengthErrors p ++ tabnumErrors p ++ tminErrors p

/-- Per-EoS-type arrays of the `eos_data` dictionary: the `{t}_dens`,
`{t}_temps`, `{t}_pres` and `{t}_eint` keys, each possibly missing. -/
structure TypeData where
  dens : Option (List ℚ)
  temps : Option (List ℚ)
  pres : Option (List (List ℚ))
  eint : Option (List (List ℚ))

/-- The per-material `eos_data` dictionary: scalar material properties and
the per-type arrays addressed by EoS type name.  `abar` keeps the dynamic
`PyVal` type because the code compares it against the string `'N/A'`;
`zmax` and `rho0` are only ever formatted or reported as `N/A`, so absence
alone is modelled for them. -/
structure EosData where
  abar : Option PyVal
  zmax : Option ℚ
  rho0 : Option ℚ
  types : String → TypeData

/-- State of a loaded `SESAMEAnalyzer` instance. -/
structure AnalyzerState where
  data_loaded : Bool
  material_id : Nat
  eos_data : EosData
  available_eos_types : List String

/-- Left-pad a decimal digit string with zeros to the given width. -/
def padZeros (w : Nat) (s : String) : String :=
  String.mk (List.replicate (w - s.length) '0') ++ s

/-- Python fixed-point formatting `f"{q:.df}"`: round to `d` decimal places. -/
def fmtFixed (d : Nat) (q : ℚ) : String :=
  let scaled : Int := round (q * (10 : ℚ) ^ d)
  let sgn := if scaled < 0 then "-" else ""
  let n := scaled.natAbs
  sgn ++ toString (n / 10 ^ d) ++ "." ++ padZeros d (toString (n % 10 ^ d))

/-- Digit grouping for Python `f"{n:,}"`, working on the reversed digit
list; the counter says how many digits remain in the current group. -/
def groupDigitsRev : Nat → List Char → List Char
  | _, [] => []
  | 0, c :: cs => ',' :: c :: groupDigitsRev 2 cs
  | Nat.succ k, c :: cs => c :: groupDigitsRev k cs

/-- Python `f"{n:,}"` formatting of a natural number (thousands separators). -/
def fmtComma (n : Nat) : String :=
  String.mk (groupDigitsRev 3 (toString n).data.reverse).reverse

/-- Floor of `log₁₀ q` for a positive rational `q` (executable). -/
def log10floorPos (q : ℚ) : Int :=
  if 1 ≤ q then (Nat.log 10 (⌊q⌋.toNat) : Int)
  else
    let k := Nat.log 10 (⌊1 / q⌋.toNat)
    if 1 / q ≤ (10 : ℚ) ^ k then -(k : Int) else -((k : Int) + 1)

/-- Python scientific formatting `f"{q:.2e}"` (two mantissa decimals). -/
def fmtSci2 (q : ℚ) : String :=
  if q = 0 then "0.00e+00"
  else
    let sgn := if q < 0 then "-" else ""
    let a := pyAbs q
    let e0 := log10floorPos a
    let m0 := (round (a / (10 : ℚ) ^ e0 * 100)).toNat
    let m := if 1000 ≤ m0 then 100 else m0
    let e := if 1000 ≤ m0 then e0 + 1 else e0
    let estr := (if e < 0 then "-" else "+") ++ padZeros 2 (toString e.natAbs)
    sgn ++ toString (m / 100) ++ "." ++ padZeros 2 (toString (m % 100)) ++ "e" ++ estr

/-- `generate_report` (`sesame_analyzer.py` lines 106-214).  The two extra
arguments model the ambient wall clock and random seed the process could in
principle consult; the body never reads them, which is what claim C7 checks.
`Except.error` models the uncaught exception raised on a string-valued
`abar` other than `'N/A'` (bad format specifier at line 122, bad comparison
at line 175) and the `IndexError` of `available_eos_types[0]` on an empty
list at line 180. -/
def generate_report (st : AnalyzerState) (_sysClock _rngSeed : Nat) :
    Except String String := do
  if st.data_loaded = false then
    return "No data loaded"
  let eqLine := String.mk (List.replicate 60 '=')
  let mut report : List String := []
  report := report ++ [eqLine]
  report := report ++ ["SESAME EoS Data Analysis Report"]
  report := report ++ [eqLine]
  report := report ++ ["\nMaterial Properties:"]
  report := report ++ ["  Material ID: " ++ toString st.material_id]
  match st.eos_data.abar with
  | some (PyVal.num a) =>
      report := report ++ ["  Average atomic mass: " ++ fmtFixed 3 a ++ " amu"]
  | some (PyVal.str s) =>
      if s = "N/A" then
        report := report ++ ["  Average atomic mass: N/A"]
      else
        throw "ValueError"
  | none =>
      report := report ++ ["  Average atomic mass: N/A"]
  match st.eos_data.zmax with
  | some z => report := report ++ ["  Average atomic number: " ++ fmtFixed 1 z]
  | none => report := report ++ ["  Average atomic number: N/A"]
  match st.eos_data.rho0 with
  | some r => report := report ++ ["  Standard density: " ++ fmtFixed 3 r ++ " g/cm³"]
  | none => report := report ++ ["  Standard density: N/A"]
  report := report ++ ["\nData Coverage:"]
  let mut total_points : Nat := 0
  for t in st.available_eos_types do
    match (st.eos_data.types t).dens, (st.eos_data.types t).temps with
    | some densities, some temperatures =>
        let valid_dens := countValid densities
        let valid_temp := countValid temperatures
        total_points := total_points + valid_dens * valid_temp
        let nonzero_dens := filterValid densities
        let nonzero_temp := filterValid temperatures
        let ion_densities := calculate_ion_densities st.eos_data.abar densities
        let nonzero_ion_dens := maskValid densities ion_densities
        report := report ++ ["  " ++ t.toUpper ++ " EoS:"]
        report := report ++ ["    Grid: " ++ toString valid_dens ++ " x "
          ++ toString valid_temp ++ " points"]
        match nonzero_dens with
        | d0 :: ds =>
            report := report ++ ["    Mass density range: " ++ fmtSci2 (ds.foldl min d0)
              ++ " - " ++ fmtSci2 (ds.foldl max d0) ++ " g/cm³"]
        | [] => pure ()
        match nonzero_ion_dens with
        | i0 :: il =>
            report := report ++ ["    Ion density range: " ++ fmtSci2 (il.foldl min i0)
              ++ " - " ++ fmtSci2 (il.foldl max i0) ++ " atoms/cm³"]
        | [] => pure ()
        match nonzero_temp with
        | t0 :: tl =>
            report := report ++ ["    Temperature range: " ++ fmtSci2 (tl.foldl min t0)
              ++ " - " ++ fmtSci2 (tl.foldl max t0) ++ " eV"]
        | [] => pure ()
    | _, _ => pure ()
  report := report ++ ["\nTotal effective data points: " ++ fmtComma total_points]
  report := report ++ ["\nIon Density Analysis:"]
  match st.eos_data.abar with
  | some (PyVal.num a) =>
      if 0 < a then
        report := report ++ ["  Average atomic mass (abar): " ++ fmtFixed 3 a ++ " amu"]
        report := report ++
          ["  Ion density calculation: ρ_ion = ρ_mass / (abar × 1.66054×10⁻²⁴)"]
        match (if st.available_eos_types.contains "total" then some "total"
            else st.available_eos_types.head?) with
        | none => throw "IndexError"
        | some main_eos =>
            match (st.eos_data.types main_eos).dens with
            | some densities =>
                let ion_densities := calculate_ion_densities st.eos_data.abar densities
                let nonzero_dens := filterValid densities
                let nonzero_ion_dens := maskValid densities ion_densities
                match nonzero_dens, nonzero_ion_dens with
                | d0 :: ds, i0 :: il =>
                    let r0 := i0 / d0
                    let rl := List.zipWith (fun x y => x / y) il ds
                    report := report ++
                      ["  Ion-to-mass density ratio range: " ++ fmtSci2 (rl.foldl min r0)
                        ++ " - " ++ fmtSci2 (rl.foldl max r0)]
                | _, _ => pure ()
            | none => pure ()
      else
        report := report ++ ["  Average atomic mass: Not available"]
        report := report ++ ["  Ion density calculation: Using default abar = 10.0 amu"]
  | some (PyVal.str s) =>
      if s = "N/A" then
        report := report ++ ["  Average atomic mass: Not available"]
        report := report ++ ["  Ion density calculation: Using default abar = 10.0 amu"]
      else
        throw "TypeError"
  | none =>
      report := report ++ ["  Average atomic mass: Not available"]
      report := report ++ ["  Ion density calculation: Using default abar = 10.0 amu"]
  report := report ++ ["\nData Quality Assessment:"]
  for t in st.available_eos_types do
    match (st.eos_data.types t).pres with
    | some pressure_data =>
        let total_p := (pressure_data.map List.length).sum
        let negative_p :=
          (pressure_data.map (fun row => (row.filter (fun x => decide (x < 0))).length)).sum
        let _zero_p :=
          (pressure_data.map (fun row => (row.filter (fun x => decide (x = 0))).length)).sum
        report := report ++ ["  " ++ t.toUpper ++ " pressure: " ++ toString negative_p
          ++ "/" ++ toString total_p ++ " negative ("
          ++ fmtFixed 1 ((negative_p : ℚ) / (total_p : ℚ) * 100) ++ "%)"]
    | none => pure ()
    match (st.eos_data.types t).eint with
    | some eint_data =>
        let total_e := (eint_data.map List.length).sum
        let negative_e :=
          (eint_data.map (fun row => (row.filter (fun x => decide (x < 0))).length)).sum
        report := report ++ ["  " ++ t.toUpper ++ " internal energy: "
          ++ toString negative_e ++ "/" ++ toString total_e ++ " negative ("
          ++ fmtFixed 1 ((negative_e : ℚ) / (total_e : ℚ) * 100) ++ "%)"]
    | none => pure ()
  return String.intercalate "\n" report

/-- `_analyze_eos_types` (`sesame_analyzer.py` lines 77-89): an EoS type is
recorded as available iff its density and temperature keys are both present
and each array has more than 5 entries strictly above the placeholder
threshold. -/
def analyzeEosTypes (d : EosData) : List String :=
  ["ioncc", "ele", "ion", "total", "cc"].filter (fun t =>
    match (d.types t).dens, (d.types t).temps with
    | some densities, some temperatures =>
        decide (5 < countValid densities) && decide (5 < countValid temperatures)
    | _, _ => false)

/-- The `eos_type` fallback at the top of both plot functions
(`sesame_analyzer.py` lines 322-323 and 443-444): an unavailable requested
type is replaced by the first available type, or `'total'` when none is. -/
def resolveEosType (available : List String) (eos_type : String) : String :=
  if available.contains eos_type then eos_type
  else
    match available with
    | [] => "total"
    | a :: _ => a

/-- Result of the analytical part of a plot function: `(None, msg, None)` for
no data or missing arrays, the final `(fig, msg, min_positive_temp)` triple
(the figure itself is rendering-boundary output and not modelled), or an
uncaught exception. -/
inductive PlotResult where
  | noData
  | incomplete (msg : String)
  | done (msg : String) (minTemp : Option ℚ)
  | raised (err : String)

/-- Analytical content of `plot_internal_energy_distribution`
(`sesame_analyzer.py` lines 317-436): loaded check, type fallback,
missing-key check, placeholder filtering and the threshold scan; all
plotting calls are out-of-scope rendering. -/
def plot_internal_energy_distribution (st : AnalyzerState) (eos_type : String) :
    PlotResult :=
  if st.data_loaded = false then PlotResult.noData
  else
    match (st.eos_data.types (resolveEosType st.available_eos_types eos_type)).dens,
        (st.eos_data.types (resolveEosType st.available_eos_types eos_type)).temps,
        (st.eos_data.types (resolveEosType st.available_eos_types eos_type)).eint with
    | some densities, some temperatures, some internal_energy =>
        match minPositiveTemp (filterValid temperatures)
            (selectValid densities temperatures internal_energy) with
        | Except.ok mpt => PlotResult.done "Internal energy analysis completed" mpt
        | Except.error e => PlotResult.raised e
    | _, _, _ =>
        PlotResult.incomplete ("Incomplete "
          ++ resolveEosType st.available_eos_types eos_type ++ " internal energy data")

/-- Analytical content of `plot_pressure_distribution`
(`sesame_analyzer.py` lines 438-585), identical to the internal-energy one
except for the scanned grid and the message strings. -/
def plot_pressure_distribution (st : AnalyzerState) (eos_type : String) :
    PlotResult :=
  if st.data_loaded = false then PlotResult.noData
  else
    match (st.eos_data.types (resolveEosType st.available_eos_types eos_type)).dens,
        (st.eos_data.types (resolveEosType st.available_eos_types eos_type)).temps,
        (st.eos_data.types (resolveEosType st.available_eos_types eos_type)).pres with
    | some densities, some temperatures, some pressure =>
        match minPositiveTemp (filterValid temperatures)
            (selectValid densities temperatures pressure) with
        | Except.ok mpt => PlotResult.done "Pressure analysis completed" mpt
        | Except.error e => PlotResult.raised e
    | _, _, _ =>
        PlotResult.incomplete ("Incomplete "
          ++ resolveEosType st.available_eos_types eos_type ++ " pressure data")

/-- Empty per-type data (all keys absent). -/
def tdEmpty : TypeData := ⟨none, none, none, none⟩

/-- A type with usable density and temperature grids (6 valid entries each)
but no pressure or internal-energy array. -/
def tdGridsOnly : TypeData :=
  { dens := some [1, 2, 3, 4, 5, 6], temps := some [1, 2, 3, 4, 5, 6],
    pres := none, eint := none }

/-- Dictionary in which only `total` has (partially) usable data. -/
def edUsable : EosData :=
  { abar := none, zmax := none, rho0 := none,
    types := fun s => if s = "total" then tdGridsOnly else tdEmpty }

/-- A loaded analyzer state whose `total` type lacks the pressure and
internal-energy arrays. -/
def stIncomplete : AnalyzerState :=
  { data_loaded := true, material_id := 7592,
    eos_data := edUsable, available_eos_types := ["total"] }

/- ------------------------------------------------------------------ -/
/- Theorems -/
/- ------------------------------------------------------------------ -/

/-- Helper: a found first-true index is within the list. -/
theorem firstTrueIdx_lt_length {p : ℚ → Bool} :
    ∀ {xs : List ℚ} {i : Nat}, firstTrueIdx p xs = some i → i < xs.length := by
  intro xs
  induction xs with
  | nil => intro i h; simp [firstTrueIdx] at h
  | cons x xs ih =>
      intro i h
      simp only [firstTrueIdx] at h
      by_cases hp : p x
      · rw [if_pos hp] at h
        have : i = 0 := (Option.some.inj h).symm
        simp [this]
      · rw [if_neg hp] at h
        rw [Option.map_eq_some'] at h
        obtain ⟨j, hj, rfl⟩ := h
        have := ih hj
        simp only [List.length_cons]
        omega

/-- Helper: with at least one valid temperature, the code's `Int`-valued
per-row index agrees with the specification's `Nat`-valued one. -/
theorem rowFirstPositiveIdx_eq_spec (numTemps : Nat) (hn : 0 < numTemps)
    (row : List ℚ) :
    rowFirstPositiveIdx numTemps row = ((firstPosIdxSpec numTemps row : Nat) : Int) := by
  unfold rowFirstPositiveIdx firstPosIdxSpec
  cases firstTrueIdx (fun q => decide (0 < q)) row with
  | some i => rfl
  | none =>
      show (numTemps : Int) - 1 = ((numTemps - 1 : Nat) : Int)
      omega

/-- Helper: pointwise-equal functions map lists equally. -/
theorem listMapCongr {α β : Type} (f g : α → β) :
    ∀ l : List α, (∀ a ∈ l, f a = g a) → l.map f = l.map g := by
  intro l
  induction l with
  | nil => intro _; rfl
  | cons x xs ih =>
      intro h
      simp only [List.map_cons]
      rw [h x (by simp), ih (fun a ha => h a (by simp [ha]))]

/-- Helper: folding `max` commutes with the cast `Nat → Int`. -/
theorem foldl_max_cast (xs : List Nat) :
    ∀ a : Nat, (xs.map (fun n : Nat => (n : Int))).foldl max (a : Int)
      = ((xs.foldl max a : Nat) : Int) := by
  induction xs with
  | nil => intro a; rfl
  | cons x xs ih =>
      intro a
      simp only [List.map_cons, List.foldl_cons]
      rw [← Nat.cast_max a x, ih]

/-- Helper: a fold of `max` stays below a strict upper bound. -/
theorem foldl_max_lt (n : Nat) :
    ∀ (xs : List Nat) (a : Nat), a < n → (∀ x ∈ xs, x < n) → xs.foldl max a < n := by
  intro xs
  induction xs with
  | nil => intro a ha _; exact ha
  | cons x xs ih =>
      intro a ha hx
      simp only [List.foldl_cons]
      apply ih
      · exact max_lt ha (hx x (by simp))
      · intro y hy; exact hx y (by simp [hy])

/-- Helper: folding `max` over elements all `≤` the accumulator returns it. -/
theorem foldl_max_le_acc :
    ∀ (xs : List Int) (a : Int), (∀ x ∈ xs, x ≤ a) → xs.foldl max a = a := by
  intro xs
  induction xs with
  | nil => intro a _; rfl
  | cons x xs ih =>
      intro a h
      simp only [List.foldl_cons]
      rw [max_eq_left (h x (by simp))]
      exact ih a (fun y hy => h y (by simp [hy]))

/-- Helper: evaluation of the scan once the maximum recorded index is known. -/
theorem minPositiveTemp_eval (temps : List ℚ) (grid : List (List ℚ)) (m : Int)
    (hpm : pyMax? (grid.map (rowFirstPositiveIdx temps.length)) = some m) :
    minPositiveTemp temps grid =
      if m < (temps.length : Int) then
        match pyGet? temps m with
        | some t => Except.ok (some t)
        | none => Except.error "IndexError"
      else Except.ok none := by
  unfold minPositiveTemp
  rw [hpm]

/-- Helper: a successful scan result comes from a Python read of the
temperature list. -/
theorem minPositiveTemp_ok_some (temps : List ℚ) (grid : List (List ℚ)) (t : ℚ)
    (h : minPositiveTemp temps grid = Except.ok (some t)) :
    ∃ i : Int, pyGet? temps i = some t := by
  cases hpm : pyMax? (grid.map (rowFirstPositiveIdx temps.length)) with
  | none =>
      unfold minPositiveTemp at h
      rw [hpm] at h
      simp at h
  | some m =>
      rw [minPositiveTemp_eval _ _ _ hpm] at h
      by_cases hlt : m < (temps.length : Int)
      · rw [if_pos hlt] at h
        cases hg : pyGet? temps m with
        | none => rw [hg] at h; simp at h
        | some v =>
            rw [hg] at h
            simp only [Except.ok.injEq, Option.some.injEq] at h
            exact ⟨m, by rw [hg, h]⟩
      · rw [if_neg hlt] at h; simp at h

/-- Helper: a successful Python read returns an element of the list. -/
theorem pyGet?_mem {xs : List ℚ} {i : Int} {v : ℚ} (h : pyGet? xs i = some v) :
    v ∈ xs := by
  unfold pyGet? at h
  by_cases h0 : 0 ≤ pyIndex xs.length i
  · rw [if_pos h0] at h; exact List.get?_mem h
  · rw [if_neg h0] at h; exact absurd h (by simp)

/-- C1: on a grid with at least one valid density row and at least one valid
temperature (rows aligned with the temperature list), the threshold scan
returns `temperatures[t*]` where `t*` is the maximum over the rows of the
first-positive column index (clamped to the last index for a never-positive
row); a row positive everywhere contributes index `0` and the
latest-turning-positive row determines the result. -/
theorem claim_C1_threshold_scan (temps : List ℚ) (grid : List (List ℚ)) (tstar : Nat)
    (hg : grid ≠ []) (ht : temps ≠ [])
    (hrows : ∀ row ∈ grid, row.length = temps.length)
    (hts : tstar = (grid.map (firstPosIdxSpec temps.length)).foldl max 0) :
    tstar < temps.length
    ∧ minPositiveTemp temps grid = Except.ok (temps.get? tstar) := by
  have hlen : 0 < temps.length := List.length_pos.mpr ht
  have hboundEach : ∀ row ∈ grid, firstPosIdxSpec temps.length row < temps.length := by
    intro row hr
    have h2 := hrows row hr
    unfold firstPosIdxSpec
    cases hfi : firstTrueIdx (fun q => decide (0 < q)) row with
    | some i =>
        show i < temps.length
        have h1 := firstTrueIdx_lt_length hfi
        omega
    | none =>
        show temps.length - 1 < temps.length
        omega
  obtain ⟨r, rs, rfl⟩ : ∃ r rs, grid = r :: rs := by
    cases grid with
    | nil => exact absurd rfl hg
    | cons r rs => exact ⟨r, rs, rfl⟩
  have hts' : tstar
      = (rs.map (firstPosIdxSpec temps.length)).foldl max (firstPosIdxSpec temps.length r) := by
    rw [hts]
    simp only [List.map_cons, List.foldl_cons, Nat.zero_max]
  have htlt : tstar < temps.length := by
    rw [hts']
    apply foldl_max_lt
    · exact hboundEach r (by simp)
    · intro x hx
      obtain ⟨row, hrow, rfl⟩ := List.mem_map.mp hx
      exact hboundEach row (by simp [hrow])
  refine ⟨htlt, ?_⟩
  have hmapeq : (r :: rs).map (rowFirstPositiveIdx temps.length)
      = ((r :: rs).map (firstPosIdxSpec temps.length)).map (fun n : Nat => (n : Int)) := by
    rw [List.map_map]
    exact listMapCongr _ _ _ (fun row _ => rowFirstPositiveIdx_eq_spec _ hlen row)
  have hpm : pyMax? ((r :: rs).map (rowFirstPositiveIdx temps.length))
      = some ((tstar : Nat) : Int) := by
    rw [hmapeq]
    simp only [List.map_cons, pyMax?]
    rw [foldl_max_cast]
    rw [← hts']
  rw [minPositiveTemp_eval _ _ _ hpm]
  have hcast : ((tstar : Nat) : Int) < (temps.length : Int) := by exact_mod_cast htlt
  rw [if_pos hcast]
  have hget : pyGet? temps ((tstar : Nat) : Int) = temps.get? tstar := by
    unfold pyGet? pyIndex
    rw [if_neg (by omega : ¬ ((tstar : Int) < 0))]
    rw [if_pos (by omega : (0 : Int) ≤ (tstar : Int))]
    rw [Int.toNat_natCast]
  rw [hget]
  obtain ⟨v, hv⟩ : ∃ v, temps.get? tstar = some v := ⟨_, List.get?_eq_get htlt⟩
  rw [hv]

/-- Witness for C1: temperatures `[2, 3, 5]`, rows `[-1, 4, 0]` (first positive
at index 1) and `[1, 1, 1]` (positive everywhere, index 0); `t* = 1` and the
scan returns temperature `3`. -/
theorem claim_C1_witness :
    (1 : Nat) < ([2, 3, 5] : List ℚ).length
    ∧ minPositiveTemp [2, 3, 5] [[-1, 4, 0], [1, 1, 1]]
        = Except.ok (([2, 3, 5] : List ℚ).get? 1) :=
  claim_C1_threshold_scan [2, 3, 5] [[-1, 4, 0], [1, 1, 1]] 1
    (by simp) (by simp) (by with_unfolding_all decide) (by with_unfolding_all decide)

/-- C2 as stated is false: with one valid density row and zero valid
temperatures the scan clamps the row index to `-1`, passes the
`max_min_idx < len(valid_temperatures)` guard, and `valid_temperatures[-1]`
raises an `IndexError` on the empty temperature array instead of returning
`None`.  Concrete input: raw densities `[1]`, raw temperatures `[0]` (a
placeholder), quantity grid `[[5]]`. -/
theorem claim_C2_counterexample :
    minPositiveTemp (filterValid [0]) (selectValid [1] [0] [[5]])
      = Except.error "IndexError" := by
  with_unfolding_all rfl

/-- C2 amended: with zero valid density rows the scan returns `None` without
raising; but with at least one valid density row and zero valid temperatures
(each surviving row is empty) it raises an `IndexError` instead. -/
theorem claim_C2_empty_inputs (temps : List ℚ) (grid : List (List ℚ)) :
    (grid = [] → minPositiveTemp temps grid = Except.ok none)
    ∧ (temps = [] → grid ≠ [] → (∀ row ∈ grid, row.length = 0) →
        minPositiveTemp temps grid = Except.error "IndexError") := by
  constructor
  · rintro rfl; rfl
  · rintro rfl hg hrows
    obtain ⟨r, rs, rfl⟩ : ∃ r rs, grid = r :: rs := by
      cases grid with
      | nil => exact absurd rfl hg
      | cons r rs => exact ⟨r, rs, rfl⟩
    have hr : r = [] := List.length_eq_zero.mp (hrows r (by simp))
    subst hr
    have hall : ∀ x ∈ rs.map (rowFirstPositiveIdx (List.length ([] : List ℚ))), x ≤ -1 := by
      intro x hx
      obtain ⟨row, hrow, rfl⟩ := List.mem_map.mp hx
      have : row = [] := List.length_eq_zero.mp (hrows row (by simp [hrow]))
      subst this
      exact le_of_eq rfl
    have hpm : pyMax? ((([] : List ℚ) :: rs).map
        (rowFirstPositiveIdx (List.length ([] : List ℚ)))) = some (-1) := by
      simp only [List.map_cons, pyMax?]
      rw [show rowFirstPositiveIdx (List.length ([] : List ℚ)) ([] : List ℚ) = -1 from rfl]
      rw [foldl_max_le_acc _ _ hall]
    rw [minPositiveTemp_eval _ _ _ hpm]
    rfl

/-- Witness for C2's amended statement at concrete inputs: an empty grid with
one temperature yields `None`; a one-row grid with no valid temperature
raises. -/
theorem claim_C2_witness :
    minPositiveTemp [(1 : ℚ)] ([] : List (List ℚ)) = Except.ok none
    ∧ minPositiveTemp ([] : List ℚ) [([] : List ℚ)] = Except.error "IndexError" :=
  ⟨(claim_C2_empty_inputs [(1 : ℚ)] []).1 rfl,
   (claim_C2_empty_inputs [] [([] : List ℚ)]).2 rfl (by simp) (by simp)⟩

/-- C3: for every mass-density array `m` and every `abar > 0`, the derivation
does not raise (the body succeeds) and returns the array of the same shape
whose `i`-th entry is `m[i] / (abar * 1.66054e-24)`. -/
theorem claim_C3_ion_density_formula (m : List ℚ) (a : ℚ) (ha : 0 < a) :
    calculate_ion_densities_body (some (PyVal.num a)) m
        = Except.ok (m.map (fun x => x / (a * atomic_mass_unit)))
    ∧ calculate_ion_densities (some (PyVal.num a)) m
        = m.map (fun x => x / (a * atomic_mass_unit))
    ∧ (calculate_ion_densities (some (PyVal.num a)) m).length = m.length := by
  have hne : ¬ a ≤ 0 := not_le.mpr ha
  refine ⟨?_, ?_, ?_⟩
  · simp [calculate_ion_densities_body, hne]
  · simp [calculate_ion_densities, calculate_ion_densities_body, hne]
  · simp [calculate_ion_densities, calculate_ion_densities_body, hne]

/-- Witness for C3 at `abar = 2` and `m = [0, -1, 3]` (zero and negative
entries included: no exception, entries formally computed). -/
theorem claim_C3_witness :
    calculate_ion_densities_body (some (PyVal.num 2)) [0, -1, 3]
        = Except.ok ([0, -1, 3].map (fun x => x / (2 * atomic_mass_unit)))
    ∧ calculate_ion_densities (some (PyVal.num 2)) [0, -1, 3]
        = [0, -1, 3].map (fun x => x / (2 * atomic_mass_unit))
    ∧ (calculate_ion_densities (some (PyVal.num 2)) [0, -1, 3]).length
        = ([0, -1, 3] : List ℚ).length :=
  claim_C3_ion_density_formula [0, -1, 3] 2 (by norm_num)

/-- C4: when `abar` is absent or `≤ 0`, the derivation returns exactly the
array it returns for the documented fallback `abar = 10.0`. -/
theorem claim_C4_abar_fallback (m : List ℚ) (a : ℚ) (ha : a ≤ 0) :
    calculate_ion_densities none m = calculate_ion_densities (some (PyVal.num 10)) m
    ∧ calculate_ion_densities (some (PyVal.num a)) m
        = calculate_ion_densities (some (PyVal.num 10)) m := by
  constructor
  · simp [calculate_ion_densities, calculate_ion_densities_body]
  · simp [calculate_ion_densities, calculate_ion_densities_body, ha]

/-- Witness for C4 at `abar = -1` (and absent) with `m = [1, 5]`. -/
theorem claim_C4_witness :
    calculate_ion_densities none [1, 5]
        = calculate_ion_densities (some (PyVal.num 10)) [1, 5]
    ∧ calculate_ion_densities (some (PyVal.num (-1))) [1, 5]
        = calculate_ion_densities (some (PyVal.num 10)) [1, 5] :=
  claim_C4_abar_fallback [1, 5] (-1) (by norm_num)

/-- C6: whenever the body of the ion-density derivation fails, the derivation
returns an all-zero array of the same shape as the input instead of
propagating the error. -/
theorem claim_C6_zero_fallback (abar : Option PyVal) (m : List ℚ) (e : String)
    (h : calculate_ion_densities_body abar m = Except.error e) :
    calculate_ion_densities abar m = List.replicate m.length 0
    ∧ (calculate_ion_densities abar m).length = m.length := by
  constructor
  · simp [calculate_ion_densities, h]
  · simp [calculate_ion_densities, h]

/-- Witness for C6: a non-numeric, non-`'N/A'` `abar` makes the body raise a
`TypeError`, and the result is the all-zero array of length 2. -/
theorem claim_C6_witness :
    calculate_ion_densities (some (PyVal.str "unknown")) [1, 2]
        = List.replicate ([1, 2] : List ℚ).length 0
    ∧ (calculate_ion_densities (some (PyVal.str "unknown")) [1, 2]).length
        = ([1, 2] : List ℚ).length :=
  claim_C6_zero_fallback (some (PyVal.str "unknown")) [1, 2] "TypeError" rfl

/-- C10: a non-`None` temperature returned by the threshold scan is an element
of the filtered valid-temperature array it scanned, hence strictly greater
than the placeholder threshold `1e-10`. -/
theorem claim_C10_result_is_valid_temp (rawTemps : List ℚ) (grid : List (List ℚ))
    (t : ℚ)
    (h : minPositiveTemp (filterValid rawTemps) grid = Except.ok (some t)) :
    t ∈ filterValid rawTemps ∧ validThreshold < t := by
  obtain ⟨i, hi⟩ := minPositiveTemp_ok_some _ _ _ h
  have hmem := pyGet?_mem hi
  exact ⟨hmem, of_decide_eq_true (List.mem_filter.mp hmem).2⟩

/-- Witness for C10: raw temperatures `[1, 2]` (both valid), grid `[[3]]`;
the scan returns temperature `1`, which is in the filtered array and above
the threshold. -/
theorem claim_C10_witness :
    (1 : ℚ) ∈ filterValid [1, 2] ∧ validThreshold < 1 :=
  claim_C10_result_is_valid_temp [1, 2] [[3]] 1 (by with_unfolding_all rfl)

/-- C5: `validate_parameters` reports every violated rule (its result is the
concatenation of the five independent checks), with the mandated concrete
outcomes: `Znum="1,6"` with `Xfracs="0.5,0.5"` gives no errors;
`Xfracs="0.5,0.6"` gives exactly the fractions-sum complaint;
`Xfracs="0.5"` gives both the fractions-sum complaint and the
length-mismatch complaint — two distinct rules reported together, with no
stop at the first failure. -/
theorem claim_C5_validator :
    (∀ p : ConvParams, validate_parameters p
        = znumErrors p ++ xfracsErrors p ++ lengthErrors p
            ++ tabnumErrors p ++ tminErrors p)
    ∧ validate_parameters ⟨some "1,6", some "0.5,0.5", none, none⟩ = []
    ∧ validate_parameters ⟨some "1,6", some "0.5,0.6", none, none⟩
        = ["Element fractions should sum to 1.0"]
    ∧ validate_parameters ⟨some "1,6", some "0.5", none, none⟩
        = ["Element fractions should sum to 1.0",
           "Number of atomic numbers must match number of fractions"]
    ∧ "Element fractions should sum to 1.0"
        ∈ validate_parameters ⟨some "1,6", some "0.5,0.6", none, none⟩
    ∧ "Number of atomic numbers must match number of fractions"
        ∈ validate_parameters ⟨some "1,6", some "0.5", none, none⟩ := by
  refine ⟨fun p => rfl, ?_, ?_, ?_, ?_, ?_⟩ <;> with_unfolding_all decide

/-- C7: the report builder is a deterministic function of the loaded record:
its text is byte-identical across invocations on the unmodified state and
independent of the ambient wall clock and random seed. -/
theorem claim_C7_report_deterministic (st : AnalyzerState) (c₁ r₁ c₂ r₂ : Nat) :
    generate_report st c₁ r₁ = generate_report st c₂ r₂ := rfl

/-- C8: for a loaded state, when the resolved EoS type lacks one of the
arrays required by the analysis (density, temperature, and internal energy
or pressure respectively), each plot function returns the explicit
`(None, "Incomplete ...", None)` indicator instead of raising. -/
theorem claim_C8_incomplete_indicator (st : AnalyzerState) (eos_type : String)
    (hl : st.data_loaded = true) :
    (((st.eos_data.types (resolveEosType st.available_eos_types eos_type)).dens = none
      ∨ (st.eos_data.types (resolveEosType st.available_eos_types eos_type)).temps = none
      ∨ (st.eos_data.types (resolveEosType st.available_eos_types eos_type)).eint = none)
      → plot_internal_energy_distribution st eos_type
          = PlotResult.incomplete ("Incomplete "
              ++ resolveEosType st.available_eos_types eos_type
              ++ " internal energy data"))
    ∧ (((st.eos_data.types (resolveEosType st.available_eos_types eos_type)).dens = none
      ∨ (st.eos_data.types (resolveEosType st.available_eos_types eos_type)).temps = none
      ∨ (st.eos_data.types (resolveEosType st.available_eos_types eos_type)).pres = none)
      → plot_pressure_distribution st eos_type
          = PlotResult.incomplete ("Incomplete "
              ++ resolveEosType st.available_eos_types eos_type
              ++ " pressure data")) := by
  constructor
  · intro hmiss
    unfold plot_internal_energy_distribution
    rw [if_neg (by simp [hl])]
    rcases hd : (st.eos_data.types (resolveEosType st.available_eos_types eos_type)).dens
      with _ | densities
    · rfl
    · rcases ht : (st.eos_data.types (resolveEosType st.available_eos_types eos_type)).temps
        with _ | temperatures
      · rfl
      · rcases he : (st.eos_data.types (resolveEosType st.available_eos_types eos_type)).eint
          with _ | internal_energy
        · rfl
        · rcases hmiss with h | h | h
          · rw [hd] at h; exact absurd h (by simp)
          · rw [ht] at h; exact absurd h (by simp)
          · rw [he] at h; exact absurd h (by simp)
  · intro hmiss
    unfold plot_pressure_distribution
    rw [if_neg (by simp [hl])]
    rcases hd : (st.eos_data.types (resolveEosType st.available_eos_types eos_type)).dens
      with _ | densities
    · rfl
    · rcases ht : (st.eos_data.types (resolveEosType st.available_eos_types eos_type)).temps
        with _ | temperatures
      · rfl
      · rcases hp : (st.eos_data.types (resolveEosType st.available_eos_types eos_type)).pres
          with _ | pressure
        · rfl
        · rcases hmiss with h | h | h
          · rw [hd] at h; exact absurd h (by simp)
          · rw [ht] at h; exact absurd h (by simp)
          · rw [hp] at h; exact absurd h (by simp)

/-- Witness for C8: a loaded state whose `total` type has grids but neither a
pressure nor an internal-energy array; both functions report incompleteness. -/
theorem claim_C8_witness :
    plot_internal_energy_distribution stIncomplete "total"
        = PlotResult.incomplete ("Incomplete "
            ++ resolveEosType stIncomplete.available_eos_types "total"
            ++ " internal energy data")
    ∧ plot_pressure_distribution stIncomplete "total"
        = PlotResult.incomplete ("Incomplete "
            ++ resolveEosType stIncomplete.available_eos_types "total"
            ++ " pressure data") :=
  ⟨(claim_C8_incomplete_indicator stIncomplete "total" rfl).1 (Or.inr (Or.inr rfl)),
   (claim_C8_incomplete_indicator stIncomplete "total" rfl).2 (Or.inr (Or.inr rfl))⟩

/-- C9: every EoS type recorded as available by the load-time analysis has
both its density and temperature arrays present with strictly more than 5
entries above the placeholder threshold `1e-10`; a type failing either bound
is never listed. -/
theorem claim_C9_available_types_usable (d : EosData) (t : String)
    (h : t ∈ analyzeEosTypes d) :
    ∃ densities temperatures,
      (d.types t).dens = some densities ∧ (d.types t).temps = some temperatures
      ∧ 5 < countValid densities ∧ 5 < countValid temperatures := by
  unfold analyzeEosTypes at h
  have hp := (List.mem_filter.mp h).2
  rcases hd : (d.types t).dens with _ | densities
  · rw [hd] at hp; simp at hp
  · rcases ht : (d.types t).temps with _ | temperatures
    · rw [hd, ht] at hp; simp at hp
    · rw [hd, ht] at hp
      simp only [Bool.and_eq_true, decide_eq_true_eq] at hp
      exact ⟨densities, temperatures, rfl, rfl, hp.1, hp.2⟩

/-- Witness for C9: in `edUsable` the `total` type is available with 6 valid
densities and 6 valid temperatures. -/
theorem claim_C9_witness :
    ∃ densities temperatures,
      (edUsable.types "total").dens = some densities
      ∧ (edUsable.types "total").temps = some temperatures
      ∧ 5 < countValid densities ∧ 5 < countValid temperatures :=
  claim_C9_available_types_usable edUsable "total" (by with_unfolding_all decide)
